import Mathlib

/-
Verification of the rosbag snapshot tool (src/tools/rosbag) against its
natural-language specification.

The repository ships the header src/tools/rosbag/include/rosbag/snapshoter.h
(declarations of MessageQueue, Snapshoter, SnapshoterTopicOptions, ...) and
src/tools/rosbag/src/snapshot.cpp (option parsing and main).  The translation
unit defining MessageQueue::push, Snapshoter::triggerSnapshotCb,
Snapshoter::fixTopicOptions and the sentinel constants is not part of the
source tree, so those operations are modelled from the specification
(spec.md sections 3, 4 and 6), as marked in the doc comments below.  Option
parsing and the main entry point are embedded directly from snapshot.cpp.
-/

namespace Rosbag

/-- Embeds SnapshotMessage (snapshoter.h lines 104-112): a buffered message,
reduced to the two fields the buffer logic inspects, its payload size in
bytes (used for the memory accounting) and its arrival time. -/
structure SnapshotMessage where
  size : Nat
  time : Int
deriving DecidableEq

/-- Embeds MessageQueue (snapshoter.h lines 119-146), the per-topic buffer.
The limits are stored already resolved: `none` models the unbounded case
(NO_DURATION_LIMIT / NO_MEMORY_LIMIT), `some v` a finite limit.  `queue_`
holds the buffered messages oldest first and `size_` is the running total
of the contained message sizes (the int64_t size_ accumulator). -/
structure MessageQueue where
  duration_limit_ : Option Int
  memory_limit_ : Option Nat
  queue_ : List SnapshotMessage
  size_ : Nat
deriving DecidableEq

/-- Sum of the sizes of the messages of a list, the reference value for the
`size_` accumulator (spec invariant I3). -/
def sumSizes (l : List SnapshotMessage) : Nat :=
  (l.map SnapshotMessage.size).sum

/-- Modelled from the spec: the memory-enforcement loop of MessageQueue::push
(spec 4.2 step 1; implementation file absent from the tree).  While the
running total plus the incoming size exceeds the finite limit M and the
buffer is non-empty, the front (oldest) message is evicted and the total
decremented. -/
def evictForMemory (M msgSize : Nat) : List SnapshotMessage → Nat → List SnapshotMessage × Nat
  | [], s => ([], s)
  | m :: rest, s =>
    if M < s + msgSize then evictForMemory M msgSize rest (s - m.size)
    else (m :: rest, s)

/-- Modelled from the spec: the duration-enforcement loop of
MessageQueue::push (spec 4.2 step 3; implementation file absent).  `bt` is
the arrival time of the message just appended at the back.  While more than
one element remains and back minus front exceeds the finite limit D, the
front is evicted and the total decremented. -/
def evictForDuration (D bt : Int) : List SnapshotMessage → Nat → List SnapshotMessage × Nat
  | [], s => ([], s)
  | [m], s => ([m], s)
  | m :: m2 :: rest, s =>
    if D < bt - m.time then evictForDuration D bt (m2 :: rest) (s - m.size)
    else (m :: m2 :: rest, s)

/-- Arrival time of the front (oldest) message, 0 for an empty list. -/
def frontTime : List SnapshotMessage → Int
  | [] => 0
  | m :: _ => m.time

/-- Arrival time of the back (newest) message, 0 for an empty list. -/
def backTime : List SnapshotMessage → Int
  | [] => 0
  | [m] => m.time
  | _ :: m2 :: rest => backTime (m2 :: rest)

/-- Modelled from the spec: the memory pass of a push, a no-op when the
memory limit is unbounded. -/
def memoryPassResult (q : MessageQueue) (msg : SnapshotMessage) : List SnapshotMessage × Nat :=
  match q.memory_limit_ with
  | some M => evictForMemory M msg.size q.queue_ q.size_
  | none => (q.queue_, q.size_)

/-- Modelled from the spec: the queue contents and accumulator produced by a
successful push, in the order fixed by spec 4.2: memory pass, append at the
back, duration pass. -/
def pushEvicted (q : MessageQueue) (msg : SnapshotMessage) : List SnapshotMessage × Nat :=
  match q.duration_limit_ with
  | some D =>
    evictForDuration D msg.time
      ((memoryPassResult q msg).1 ++ [msg]) ((memoryPassResult q msg).2 + msg.size)
  | none => ((memoryPassResult q msg).1 ++ [msg], (memoryPassResult q msg).2 + msg.size)

/-- Modelled from the spec: MessageQueue::push / prepare_push (snapshoter.h
lines 124-125 and 144-145; implementation file absent, behaviour from spec
4.2).  A message whose own size exceeds a finite memory limit is dropped
and the queue left unchanged (returns false); otherwise the eviction passes
run, the message is appended, and push returns true. -/
def MessageQueue.push (q : MessageQueue) (msg : SnapshotMessage) : Bool × MessageQueue :=
  match q.memory_limit_ with
  | some M =>
    if M < msg.size then (false, q)
    else (true, { q with queue_ := (pushEvicted q msg).1, size_ := (pushEvicted q msg).2 })
  | none => (true, { q with queue_ := (pushEvicted q msg).1, size_ := (pushEvicted q msg).2 })

/-- Embeds MessageQueue::duration (snapshoter.h line 129): the time
difference between back and front of the queue, or 0 if it holds at most
one element. -/
def MessageQueue.duration (q : MessageQueue) : Int :=
  if 2 ≤ q.queue_.length then backTime q.queue_ - frontTime q.queue_ else 0

/-- Modelled from the spec: a freshly constructed MessageQueue with the
given resolved limits is empty with a zero accumulator. -/
def MessageQueue.init (dl : Option Int) (ml : Option Nat) : MessageQueue :=
  { duration_limit_ := dl, memory_limit_ := ml, queue_ := [], size_ := 0 }

/-- Folds a sequence of pushes over a queue, keeping the resulting state of
each push (the Bool results are as computed by push but not accumulated). -/
def runPushes (q : MessageQueue) (msgs : List SnapshotMessage) : MessageQueue :=
  msgs.foldl (fun st m => (st.push m).2) q

/-- Modelled from the spec: a per-field topic limit before resolution
(spec 3, TopicLimits).  The sentinel encodings NO_DURATION_LIMIT,
INHERIT_DURATION_LIMIT, NO_MEMORY_LIMIT, INHERIT_MEMORY_LIMIT of
snapshoter.h lines 59-66 are defined in the absent implementation file, so
the three cases are represented symbolically. -/
inductive LimitValue where
  | unbounded
  | inheritDefault
  | value (v : Int)
deriving DecidableEq

/-- Embeds SnapshoterTopicOptions (snapshoter.h lines 57-75): the per-topic
duration and memory limit fields, each possibly a sentinel. -/
structure SnapshoterTopicOptions where
  duration_limit_ : LimitValue
  memory_limit_ : LimitValue
deriving DecidableEq

/-- The process-wide defaults a topic inherits from, the
default_duration_limit_ and default_memory_limit_ fields of
SnapshoterOptions viewed at the limit level (spec 4.1 GlobalDefaults). -/
structure GlobalDefaults where
  default_duration_limit_ : LimitValue
  default_memory_limit_ : LimitValue
deriving DecidableEq

/-- Modelled from the spec: resolution of one limit field against its
default (spec 4.1): InheritDefault is replaced by the default, Unbounded
and explicit values pass through unchanged. -/
def resolveLimit (d : LimitValue) : LimitValue → LimitValue
  | .inheritDefault => d
  | .unbounded => .unbounded
  | .value v => .value v

/-- Modelled from the spec: Snapshoter::fixTopicOptions (snapshoter.h lines
176-177; implementation file absent, behaviour from spec 4.1): replace each
field of the topic options flagged InheritDefault with the node default. -/
def fixTopicOptions (g : GlobalDefaults) (o : SnapshoterTopicOptions) : SnapshoterTopicOptions :=
  { duration_limit_ := resolveLimit g.default_duration_limit_ o.duration_limit_,
    memory_limit_ := resolveLimit g.default_memory_limit_ o.memory_limit_ }

/-- Embeds parseVariablesMap line 94 (snapshot.cpp):
default_memory_limit_ = int(1E6 * size).  Exact for the integer-valued
sizes considered here. -/
def defaultMemoryLimitOfSize (size : Int) : Int := 1000000 * size

/-- Embeds the command-line default of the size option (snapshot.cpp line
59): default_value(-1), documented as no limit. -/
def sizeOptionDefault : Int := -1

/-- Modelled from the spec: interpretation of a configured memory value as
a resolved limit (spec 6, configuration surface): a negative value means
unbounded for that dimension, a non-negative value is the finite byte
limit.  The comparison code lives in the absent implementation file. -/
def memoryLimitOfConfig (m : Int) : Option Nat :=
  if m < 0 then none else some m.toNat

/-- Modelled from the spec: interpretation of a configured duration value
as a resolved limit (spec 6): negative means unbounded for that dimension. -/
def durationLimitOfConfig (d : Int) : Option Int :=
  if d < 0 then none else some d

/-- Result of the trigger-snapshot service call, ok flag plus message
(TriggerSnapshot response; spec Result{ok, message}). -/
structure TriggerSnapshotResult where
  ok : Bool
  message : String
deriving DecidableEq

/-- Embeds the Snapshoter state (snapshoter.h lines 154-190): the buffer
registry keyed by topic name, and the recording_ and writing_ flags. -/
structure SnapshoterState where
  buffers_ : List (String × MessageQueue)
  recording_ : Bool
  writing_ : Bool
deriving DecidableEq

/-- Modelled from the spec: draining a buffer (spec 4.2 drain) removes and
returns all current contents, leaving the buffer empty with a zero
accumulator. -/
def MessageQueue.drain (q : MessageQueue) : List SnapshotMessage × MessageQueue :=
  (q.queue_, { q with queue_ := [], size_ := 0 })

/-- Outcome of one triggerSnapshot invocation: the service result, the
Snapshoter state on return, and whether the persistence destination was
opened at all. -/
structure SnapshotOutcome where
  res : TriggerSnapshotResult
  state : SnapshoterState
  fileOpened : Bool
deriving DecidableEq

/-- Modelled from the spec: Snapshoter::triggerSnapshotCb (snapshoter.h
lines 186-187; implementation file absent, behaviour from spec 4.3 steps
1-7).  `persistOk` models whether the external persistence collaborator
succeeds.  A request while writing_ is true is rejected immediately with
no side effects; otherwise the target buffers are drained, the drained
data handed to persistence, and writing_ is reset to false on return,
with ok reporting the persistence result. -/
def triggerSnapshot (persistOk : Bool) (topics : Option (List String))
    (st : SnapshoterState) : SnapshotOutcome :=
  if st.writing_ then
    { res := { ok := false, message := "snapshot already in progress" },
      state := st, fileOpened := false }
  else
    let targets := match topics with
      | some ts => ts
      | none => st.buffers_.map Prod.fst
    let emptyNotes := match topics with
      | some ts =>
        (ts.filter (fun t =>
          (st.buffers_.filter (fun p => p.1 = t)).all (fun p => p.2.queue_.isEmpty))).map
          (fun t => "no buffered messages for " ++ t)
      | none => []
    let newBufs := st.buffers_.map (fun p =>
      if p.1 ∈ targets then (p.1, (p.2.drain).2) else p)
    let persistNote := if persistOk then [] else ["persistence error"]
    { res := { ok := persistOk,
               message := String.intercalate "; " (emptyNotes ++ persistNote) },
      state := { st with buffers_ := newBufs, writing_ := false },
      fileOpened := true }

/-- Modelled from the spec: Snapshoter::recordCb / setRecording (snapshoter.h
line 189; spec 4.3): sets the recording_ flag, always succeeds. -/
def setRecording (enabled : Bool) (st : SnapshoterState) : SnapshoterState :=
  { st with recording_ := enabled }

/-- Modelled from the spec: Snapshoter::topicCB (snapshoter.h lines 184-185;
implementation file absent, behaviour from spec 4.3): on a new message for
a topic, if recording_ is false the message is discarded and nothing
changes; otherwise it is pushed onto that topic's queue. -/
def topicCB (st : SnapshoterState) (topic : String) (msg : SnapshotMessage) : SnapshoterState :=
  if st.recording_ then
    { st with buffers_ := st.buffers_.map (fun p =>
        if p.1 = topic then (p.1, (p.2.push msg).2) else p) }
  else st

/-- Folds a sequence of message arrivals (topic, message) through topicCB. -/
def runArrivals (st : SnapshoterState) (arrivals : List (String × SnapshotMessage)) : SnapshoterState :=
  arrivals.foldl (fun s a => topicCB s a.1 a.2) st

/-- Embeds the variables map produced by parseOptions (snapshot.cpp lines
51-84): the three action flags, the size (MB) and duration (seconds)
values with their command-line defaults, the output filename (defaulted to
the empty string, hence always counted), and the positional topic list
(empty when the option is absent, so vm.count("topic") is modelled by
non-emptiness). -/
structure VariablesMap where
  trigger_write : Bool
  pause : Bool
  resume : Bool
  size : Int
  duration : Int
  filename : String
  topic : List String
deriving DecidableEq

/-- Embeds SnapshoterOptions (snapshoter.h lines 81-98): process defaults
and the topic map, as an association list in insertion order. -/
structure SnapshoterOptions where
  default_duration_limit_ : Int
  default_memory_limit_ : Int
  topics_ : List (String × SnapshoterTopicOptions)
deriving DecidableEq

/-- Modelled from the spec: SnapshoterOptions::addTopic (snapshoter.h lines
95-97; implementation file absent): registers a topic in the map keyed by
name, keeping the existing entry if the name is already present
(std::map insertion). -/
def SnapshoterOptions.addTopic (o : SnapshoterOptions) (topic : String)
    (dl ml : LimitValue) : SnapshoterOptions :=
  if o.topics_.any (fun p => p.1 = topic) then o
  else { o with topics_ := o.topics_ ++ [(topic, { duration_limit_ := dl, memory_limit_ := ml })] }

/-- Embeds the SnapshoterOptions default constructor (snapshoter.h line
92): duration 0, memory 0, no topics. -/
def defaultSnapshoterOptions : SnapshoterOptions :=
  { default_duration_limit_ := 0, default_memory_limit_ := 0, topics_ := [] }

/-- Embeds parseVariablesMap (snapshot.cpp lines 86-97): each positional
topic is added with inherit sentinels, then the process defaults are set
from the size and duration options (memory as int(1E6 * size)). -/
def parseVariablesMap (opts : SnapshoterOptions) (vm : VariablesMap) : SnapshoterOptions :=
  let o1 := vm.topic.foldl (fun o t => o.addTopic t .inheritDefault .inheritDefault) opts
  { o1 with default_memory_limit_ := defaultMemoryLimitOfSize vm.size,
            default_duration_limit_ := vm.duration }

/-- Embeds the effect of appendParamOptions (snapshot.cpp lines 125-181)
with the external parameter server abstracted into the already-parsed list
of configured topics: each is added to the options via addTopic. -/
def appendParamOptions (opts : SnapshoterOptions)
    (paramTopics : List (String × LimitValue × LimitValue)) : SnapshoterOptions :=
  paramTopics.foldl (fun o pt => o.addTopic pt.1 pt.2.1 pt.2.2) opts

/-- Embeds the SnapshoterClientOptions action constants PAUSE, RESUME,
TRIGGER_WRITE used by snapshot.cpp lines 101-105. -/
inductive ClientAction where
  | pause
  | resume
  | triggerWrite
deriving DecidableEq

/-- Embeds SnapshoterClientOptions as used by snapshot.cpp lines 99-112:
the selected action, the topic list and the output filename. -/
structure SnapshoterClientOptions where
  action_ : ClientAction
  topics_ : List String
  filename_ : String
deriving DecidableEq

/-- Embeds parseVariablesMapClient (snapshot.cpp lines 99-112): pause takes
precedence over resume, which takes precedence over trigger-write; only
the trigger-write branch copies the topic list (when present) and the
filename (always present, it has a command-line default) into the client
options. -/
def parseVariablesMapClient (opts : SnapshoterClientOptions) (vm : VariablesMap) :
    SnapshoterClientOptions :=
  if vm.pause then { opts with action_ := .pause }
  else if vm.resume then { opts with action_ := .resume }
  else if vm.trigger_write then
    { opts with
      action_ := .triggerWrite,
      topics_ := if vm.topic.isEmpty then opts.topics_ else vm.topic,
      filename_ := vm.filename }
  else opts

/-- The four ways main (snapshot.cpp lines 183-219) can proceed: exit 1 on
a parse failure or help, run the client, exit 1 with ROS_FATAL when no
topics are configured, or construct and run the Snapshoter. -/
inductive MainOutcome where
  | exitParseError
  | runClient (opts : SnapshoterClientOptions)
  | fatalNoTopics
  | runSnapshoter (opts : SnapshoterOptions)
deriving DecidableEq

/-- The options main assembles on the server path before the topic-count
check: command-line parsing into the default options, then the parameter
topics appended (snapshot.cpp lines 200-206). -/
def configuredOptions (vm : VariablesMap)
    (paramTopics : List (String × LimitValue × LimitValue)) : SnapshoterOptions :=
  appendParamOptions (parseVariablesMap defaultSnapshoterOptions vm) paramTopics

/-- Embeds main (snapshot.cpp lines 183-219).  `parseOk` models the result
of parseOptions (false on a parse error or help request), `paramTopics`
the parsed ~topics parameter, and `clientInit` the default-constructed
SnapshoterClientOptions (constructor in the absent implementation file).
If any client flag is set, the client runs; otherwise the options are
assembled and, when no topics are configured, main reports ROS_FATAL and
returns 1 without constructing the Snapshoter. -/
def snapshotMain (parseOk : Bool) (vm : VariablesMap)
    (paramTopics : List (String × LimitValue × LimitValue))
    (clientInit : SnapshoterClientOptions) : MainOutcome :=
  if ¬ parseOk then .exitParseError
  else if vm.trigger_write || vm.pause || vm.resume then
    .runClient (parseVariablesMapClient clientInit vm)
  else if (configuredOptions vm paramTopics).topics_.isEmpty then .fatalNoTopics
  else .runSnapshoter (configuredOptions vm paramTopics)

/-- Exit code of main for the outcomes that return directly; the two run
outcomes return their callee's status and are mapped to none. -/
def mainExitCode : MainOutcome → Option Int
  | .exitParseError => some 1
  | .fatalNoTopics => some 1
  | .runClient _ => none
  | .runSnapshoter _ => none

theorem sumSizes_nil : sumSizes [] = 0 := rfl

theorem sumSizes_cons (m : SnapshotMessage) (l : List SnapshotMessage) :
    sumSizes (m :: l) = m.size + sumSizes l := by
  simp [sumSizes]

theorem sumSizes_append (l1 l2 : List SnapshotMessage) :
    sumSizes (l1 ++ l2) = sumSizes l1 + sumSizes l2 := by
  simp [sumSizes]

/-- The memory-enforcement loop keeps the accumulator equal to the sum of
the remaining sizes, and stops only when the buffer is empty or the new
message fits under the limit. -/
theorem evictForMemory_spec (M sz : Nat) :
    ∀ (l : List SnapshotMessage) (s : Nat), s = sumSizes l →
      (evictForMemory M sz l s).2 = sumSizes (evictForMemory M sz l s).1 ∧
      ((evictForMemory M sz l s).1 = [] ∨ (evictForMemory M sz l s).2 + sz ≤ M) := by
  intro l
  induction l with
  | nil =>
    intro s hs
    simp [evictForMemory, hs, sumSizes_nil]
  | cons m rest ih =>
    intro s hs
    rw [sumSizes_cons] at hs
    by_cases h : M < s + sz
    · have hrec : s - m.size = sumSizes rest := by omega
      simpa [evictForMemory, h] using ih (s - m.size) hrec
    · refine ⟨?_, Or.inr ?_⟩
      · simp [evictForMemory, h, sumSizes_cons]
        omega
      · simp [evictForMemory, h]
        omega

/-- The duration-enforcement loop keeps the accumulator equal to the sum of
the remaining sizes and never increases it. -/
theorem evictForDuration_sum (D bt : Int) :
    ∀ (l : List SnapshotMessage) (s : Nat), s = sumSizes l →
      (evictForDuration D bt l s).2 = sumSizes (evictForDuration D bt l s).1 ∧
      (evictForDuration D bt l s).2 ≤ s := by
  intro l
  induction l with
  | nil =>
    intro s hs
    simp [evictForDuration]
    exact hs
  | cons m rest ih =>
    intro s hs
    cases rest with
    | nil =>
      simp [evictForDuration]
      exact hs
    | cons m2 rest2 =>
      rw [sumSizes_cons] at hs
      by_cases h : D < bt - m.time
      · have hrec : s - m.size = sumSizes (m2 :: rest2) := by omega
        have hih := ih (s - m.size) hrec
        simp only [evictForDuration, if_pos h]
        exact ⟨hih.1, hih.2.trans (Nat.sub_le s m.size)⟩
      · simp only [evictForDuration, if_neg h]
        refine ⟨?_, le_refl s⟩
        rw [sumSizes_cons]
        exact hs

/-- After the duration-enforcement loop, if at least two elements remain,
the back time minus the front time is within the limit. -/
theorem evictForDuration_front (D bt : Int) :
    ∀ (l : List SnapshotMessage) (s : Nat),
      2 ≤ (evictForDuration D bt l s).1.length →
      bt - frontTime (evictForDuration D bt l s).1 ≤ D := by
  intro l
  induction l with
  | nil =>
    intro s h
    simp [evictForDuration] at h
  | cons m rest ih =>
    intro s h
    cases rest with
    | nil =>
      simp [evictForDuration] at h
    | cons m2 rest2 =>
      by_cases hc : D < bt - m.time
      · simp only [evictForDuration, if_pos hc] at h ⊢
        exact ih (s - m.size) h
      · simp only [evictForDuration, if_neg hc] at h ⊢
        simp [frontTime]
        omega

/-- The duration-enforcement loop keeps the buffer non-empty and preserves
its back element's time. -/
theorem evictForDuration_back (D bt : Int) :
    ∀ (l : List SnapshotMessage) (s : Nat), l ≠ [] →
      (evictForDuration D bt l s).1 ≠ [] ∧
      backTime (evictForDuration D bt l s).1 = backTime l := by
  intro l
  induction l with
  | nil =>
    intro s h
    exact absurd rfl h
  | cons m rest ih =>
    intro s _
    cases rest with
    | nil =>
      simp [evictForDuration]
    | cons m2 rest2 =>
      by_cases hc : D < bt - m.time
      · have hih := ih (s - m.size) (List.cons_ne_nil m2 rest2)
        simp only [evictForDuration, if_pos hc]
        exact ⟨hih.1, hih.2.trans (by simp [backTime])⟩
      · simp [evictForDuration, hc]

/-- Appending a message at the back makes its time the back time. -/
theorem backTime_append (msg : SnapshotMessage) :
    ∀ l : List SnapshotMessage, backTime (l ++ [msg]) = msg.time := by
  intro l
  induction l with
  | nil => rfl
  | cons m rest ih =>
    cases rest with
    | nil => rfl
    | cons m2 rest2 =>
      simpa [backTime] using ih

theorem push_memory_limit (q : MessageQueue) (msg : SnapshotMessage) :
    ((q.push msg).2).memory_limit_ = q.memory_limit_ := by
  unfold MessageQueue.push
  cases hm : q.memory_limit_ with
  | none => simp
  | some M =>
    by_cases h : M < msg.size <;> simp [h, hm]

theorem push_duration_limit (q : MessageQueue) (msg : SnapshotMessage) :
    ((q.push msg).2).duration_limit_ = q.duration_limit_ := by
  unfold MessageQueue.push
  cases hm : q.memory_limit_ with
  | none => simp
  | some M =>
    by_cases h : M < msg.size <;> simp [h, hm]

/-- A successful push keeps the accumulator equal to the sum of the stored
sizes (spec invariant I3). -/
theorem pushEvicted_sum (q : MessageQueue) (msg : SnapshotMessage)
    (h3 : q.size_ = sumSizes q.queue_) :
    (pushEvicted q msg).2 = sumSizes (pushEvicted q msg).1 := by
  have hmp : (memoryPassResult q msg).2 = sumSizes (memoryPassResult q msg).1 := by
    unfold memoryPassResult
    cases hm : q.memory_limit_ with
    | none => exact h3
    | some M => exact (evictForMemory_spec M msg.size q.queue_ q.size_ h3).1
  have happ : (memoryPassResult q msg).2 + msg.size
      = sumSizes ((memoryPassResult q msg).1 ++ [msg]) := by
    rw [sumSizes_append, hmp]
    simp [sumSizes]
  unfold pushEvicted
  cases hd : q.duration_limit_ with
  | none => exact happ
  | some D =>
    exact (evictForDuration_sum D msg.time _ _ happ).1

/-- After a successful push under a finite memory limit that the message
itself fits in, the accumulator is within the limit. -/
theorem pushEvicted_bound (q : MessageQueue) (msg : SnapshotMessage) (M : Nat)
    (hm : q.memory_limit_ = some M) (hsz : msg.size ≤ M)
    (h3 : q.size_ = sumSizes q.queue_) :
    (pushEvicted q msg).2 ≤ M := by
  have hspec := evictForMemory_spec M msg.size q.queue_ q.size_ h3
  have hmp : memoryPassResult q msg = evictForMemory M msg.size q.queue_ q.size_ := by
    unfold memoryPassResult
    rw [hm]
  have hbound : (memoryPassResult q msg).2 + msg.size ≤ M := by
    rw [hmp]
    rcases hspec.2 with hemp | hle
    · have h0 : (evictForMemory M msg.size q.queue_ q.size_).2 = 0 := by
        rw [hspec.1, hemp, sumSizes_nil]
      omega
    · exact hle
  have happ : (memoryPassResult q msg).2 + msg.size
      = sumSizes ((memoryPassResult q msg).1 ++ [msg]) := by
    have hmpsum : (memoryPassResult q msg).2 = sumSizes (memoryPassResult q msg).1 := by
      rw [hmp]
      exact hspec.1
    rw [sumSizes_append, hmpsum]
    simp [sumSizes]
  unfold pushEvicted
  cases hd : q.duration_limit_ with
  | none => exact hbound
  | some D =>
    exact ((evictForDuration_sum D msg.time _ _ happ).2).trans hbound

/-- The state invariant carried along a run of pushes: the accumulator
matches the stored sizes, and it respects any finite memory limit. -/
def QueueInv (q : MessageQueue) : Prop :=
  q.size_ = sumSizes q.queue_ ∧ ∀ M, q.memory_limit_ = some M → q.size_ ≤ M

theorem push_inv (q : MessageQueue) (msg : SnapshotMessage) (h : QueueInv q) :
    QueueInv ((q.push msg).2) := by
  obtain ⟨h3, hb⟩ := h
  unfold MessageQueue.push
  cases hm : q.memory_limit_ with
  | none =>
    refine ⟨pushEvicted_sum q msg h3, ?_⟩
    intro M hM
    simp [hm] at hM
  | some M =>
    by_cases hsz : M < msg.size
    · simp only [if_pos hsz]
      exact ⟨h3, hb⟩
    · simp only [if_neg hsz]
      refine ⟨pushEvicted_sum q msg h3, ?_⟩
      intro M2 hM2
      simp only [hm] at hM2
      have hMM : M2 = M := by
        simpa using hM2.symm
      subst hMM
      exact pushEvicted_bound q msg M2 hm (le_of_not_lt hsz) h3

theorem runPushes_inv (msgs : List SnapshotMessage) :
    ∀ q : MessageQueue, QueueInv q → QueueInv (runPushes q msgs) := by
  induction msgs with
  | nil =>
    intro q h
    exact h
  | cons m rest ih =>
    intro q h
    have hstep : runPushes q (m :: rest) = runPushes ((q.push m).2) rest := by
      simp [runPushes]
    rw [hstep]
    exact ih _ (push_inv q m h)

theorem runPushes_memory_limit (msgs : List SnapshotMessage) :
    ∀ q : MessageQueue, (runPushes q msgs).memory_limit_ = q.memory_limit_ := by
  induction msgs with
  | nil =>
    intro q
    rfl
  | cons m rest ih =>
    intro q
    have hstep : runPushes q (m :: rest) = runPushes ((q.push m).2) rest := by
      simp [runPushes]
    rw [hstep, ih, push_memory_limit]

theorem runPushes_duration_limit (msgs : List SnapshotMessage) :
    ∀ q : MessageQueue, (runPushes q msgs).duration_limit_ = q.duration_limit_ := by
  induction msgs with
  | nil =>
    intro q
    rfl
  | cons m rest ih =>
    intro q
    have hstep : runPushes q (m :: rest) = runPushes ((q.push m).2) rest := by
      simp [runPushes]
    rw [hstep, ih, push_duration_limit]

/-- After a successful push under a finite duration limit, if at least two
messages remain, the back-to-front spread is within the limit. -/
theorem pushEvicted_durBound (q : MessageQueue) (msg : SnapshotMessage) (D : Int)
    (hD : q.duration_limit_ = some D)
    (hlen : 2 ≤ (pushEvicted q msg).1.length) :
    backTime (pushEvicted q msg).1 - frontTime (pushEvicted q msg).1 ≤ D := by
  have hpe : pushEvicted q msg
      = evictForDuration D msg.time
          ((memoryPassResult q msg).1 ++ [msg]) ((memoryPassResult q msg).2 + msg.size) := by
    unfold pushEvicted
    rw [hD]
  rw [hpe] at hlen ⊢
  have hfront := evictForDuration_front D msg.time
    ((memoryPassResult q msg).1 ++ [msg]) ((memoryPassResult q msg).2 + msg.size) hlen
  have hback := evictForDuration_back D msg.time
    ((memoryPassResult q msg).1 ++ [msg]) ((memoryPassResult q msg).2 + msg.size)
    (by simp)
  rw [hback.2, backTime_append]
  exact hfront

/-- A push preserves the duration invariant: with a finite duration limit,
whenever the queue holds at least two messages the spread is within the
limit. -/
theorem push_durBound (q : MessageQueue) (msg : SnapshotMessage) (D : Int)
    (hD : q.duration_limit_ = some D)
    (hq : 2 ≤ q.queue_.length → backTime q.queue_ - frontTime q.queue_ ≤ D) :
    2 ≤ ((q.push msg).2).queue_.length →
      backTime ((q.push msg).2).queue_ - frontTime ((q.push msg).2).queue_ ≤ D := by
  unfold MessageQueue.push
  cases hm : q.memory_limit_ with
  | none =>
    intro hlen
    exact pushEvicted_durBound q msg D hD hlen
  | some M =>
    by_cases hsz : M < msg.size
    · simp only [if_pos hsz]
      exact hq
    · simp only [if_neg hsz]
      intro hlen
      exact pushEvicted_durBound q msg D hD hlen

theorem runPushes_durBound (D : Int) (msgs : List SnapshotMessage) :
    ∀ q : MessageQueue, q.duration_limit_ = some D →
      (2 ≤ q.queue_.length → backTime q.queue_ - frontTime q.queue_ ≤ D) →
      (2 ≤ (runPushes q msgs).queue_.length →
        backTime (runPushes q msgs).queue_ - frontTime (runPushes q msgs).queue_ ≤ D) := by
  induction msgs with
  | nil =>
    intro q _ hq
    exact hq
  | cons m rest ih =>
    intro q hD hq
    have hstep : runPushes q (m :: rest) = runPushes ((q.push m).2) rest := by
      simp [runPushes]
    rw [hstep]
    exact ih _ (by rw [push_duration_limit, hD]) (push_durBound q m D hD hq)

/-- C1: for every sequence of pushes on a MessageQueue whose resolved
memory limit is the finite value M, the total-size accumulator satisfies
size_ <= M; since every prefix of the sequence is itself such a sequence,
the bound holds after each push, memory enforcement having evicted oldest
messages before appending. -/
theorem C1_memory_bound (dl : Option Int) (M : Nat) (msgs : List SnapshotMessage) :
    (runPushes (MessageQueue.init dl (some M)) msgs).size_ ≤ M := by
  have hinv : QueueInv (MessageQueue.init dl (some M)) := by
    constructor
    · rfl
    · intro M2 _
      exact Nat.zero_le M2
  have hfin := runPushes_inv msgs _ hinv
  refine hfin.2 M ?_
  rw [runPushes_memory_limit]
  rfl

/-- C2: for every sequence of pushes on a MessageQueue whose resolved
duration limit is the finite value D, after each push that leaves the
queue with two or more elements the back arrival time minus the front
arrival time, as returned by duration(), is at most D; the spec scenario
(limit 5s, pushes at t = 0, 3, 7 leaving the messages at 3 and 7 with
duration 4s) is checked in the witness. -/
theorem C2_duration_bound (ml : Option Nat) (D : Int) (msgs : List SnapshotMessage)
    (hlen : 2 ≤ (runPushes (MessageQueue.init (some D) ml) msgs).queue_.length) :
    (runPushes (MessageQueue.init (some D) ml) msgs).duration ≤ D := by
  have hb := runPushes_durBound D msgs (MessageQueue.init (some D) ml) rfl
    (by
      intro h
      simp [MessageQueue.init] at h) hlen
  unfold MessageQueue.duration
  rw [if_pos hlen]
  exact hb

/-- Witness for C2: the spec scenario, duration limit 5 and pushes at
arrival times 0, 3, 7: after the third push the queue holds exactly the
messages at times 3 and 7, and duration() returns 4, which the theorem
bounds by 5. -/
theorem C2_duration_bound_witness :
    (runPushes (MessageQueue.init (some 5) none) [⟨1, 0⟩, ⟨1, 3⟩, ⟨1, 7⟩]).queue_.map
        SnapshotMessage.time = [3, 7] ∧
    2 ≤ (runPushes (MessageQueue.init (some 5) none) [⟨1, 0⟩, ⟨1, 3⟩, ⟨1, 7⟩]).queue_.length ∧
    (runPushes (MessageQueue.init (some 5) none) [⟨1, 0⟩, ⟨1, 3⟩, ⟨1, 7⟩]).duration = 4 ∧
    (runPushes (MessageQueue.init (some 5) none) [⟨1, 0⟩, ⟨1, 3⟩, ⟨1, 7⟩]).duration ≤ 5 :=
  ⟨by decide, by decide, by decide,
    C2_duration_bound none 5 [⟨1, 0⟩, ⟨1, 3⟩, ⟨1, 7⟩] (by decide)⟩

/-- C3: on a MessageQueue with finite memory limit M, push returns false
and leaves the queue completely unchanged exactly when the message's own
size exceeds M (the spec scenario, limit 1000 and size 2000 on an empty
buffer, is checked in the witness). -/
theorem C3_oversize_drop (q : MessageQueue) (msg : SnapshotMessage) (M : Nat)
    (hm : q.memory_limit_ = some M) :
    ((q.push msg).1 = false ∧ (q.push msg).2 = q) ↔ M < msg.size := by
  unfold MessageQueue.push
  rw [hm]
  by_cases h : M < msg.size
  · simp [h]
  · simp [h]

/-- Witness for C3: memory limit 1000, a single message of size 2000:
push returns false and the buffer remains empty, and the theorem's
equivalence holds at this input. -/
theorem C3_oversize_drop_witness :
    ((MessageQueue.init none (some 1000)).push ⟨2000, 0⟩).1 = false ∧
    ((MessageQueue.init none (some 1000)).push ⟨2000, 0⟩).2.queue_ = [] ∧
    ((((MessageQueue.init none (some 1000)).push ⟨2000, 0⟩).1 = false ∧
      ((MessageQueue.init none (some 1000)).push ⟨2000, 0⟩).2
        = MessageQueue.init none (some 1000)) ↔
      (1000 : Nat) < (2000 : Nat)) :=
  ⟨by decide, by decide,
    C3_oversize_drop (MessageQueue.init none (some 1000)) ⟨2000, 0⟩ 1000 rfl⟩

/-- C4: while a snapshot is already in progress (writing_ true), any
triggerSnapshot call is rejected immediately with ok false and the message
"snapshot already in progress", and the rejected call has no side effects:
the state (buffers, recording_, writing_) is returned unchanged and no
file is opened. -/
theorem C4_reject_while_writing (persistOk : Bool) (topics : Option (List String))
    (st : SnapshoterState) (hw : st.writing_ = true) :
    triggerSnapshot persistOk topics st
      = { res := { ok := false, message := "snapshot already in progress" },
          state := st, fileOpened := false } := by
  unfold triggerSnapshot
  rw [hw]
  simp

/-- Witness for C4: a concrete busy state: the call is rejected with the
exact message and the state is unchanged. -/
theorem C4_reject_while_writing_witness :
    (⟨[("chatter", MessageQueue.init none none)], true, true⟩ : SnapshoterState).writing_
      = true ∧
    triggerSnapshot true none ⟨[("chatter", MessageQueue.init none none)], true, true⟩
      = { res := { ok := false, message := "snapshot already in progress" },
          state := ⟨[("chatter", MessageQueue.init none none)], true, true⟩,
          fileOpened := false } :=
  ⟨rfl, C4_reject_while_writing true none
    ⟨[("chatter", MessageQueue.init none none)], true, true⟩ rfl⟩

/-- C5: every accepted triggerSnapshot invocation (writing_ false on
entry) returns with writing_ false again on every exit path, and the ok
flag of the result equals the persistence outcome, so a persistence
failure is reported as ok false in the result (the model is a total
function, so no exit path terminates the process). -/
theorem C5_writing_reset (persistOk : Bool) (topics : Option (List String))
    (st : SnapshoterState) (hw : st.writing_ = false) :
    (triggerSnapshot persistOk topics st).state.writing_ = false ∧
    (triggerSnapshot persistOk topics st).res.ok = persistOk := by
  unfold triggerSnapshot
  rw [hw]
  simp

/-- Witness for C5: a concrete accepted call with failing persistence:
writing_ is false on return and the result reports ok false. -/
theorem C5_writing_reset_witness :
    (⟨[("chatter", MessageQueue.init none none)], true, false⟩ : SnapshoterState).writing_
      = false ∧
    (triggerSnapshot false none
      ⟨[("chatter", MessageQueue.init none none)], true, false⟩).state.writing_ = false ∧
    (triggerSnapshot false none
      ⟨[("chatter", MessageQueue.init none none)], true, false⟩).res.ok = false :=
  ⟨rfl,
    (C5_writing_reset false none
      ⟨[("chatter", MessageQueue.init none none)], true, false⟩ rfl).1,
    (C5_writing_reset false none
      ⟨[("chatter", MessageQueue.init none none)], true, false⟩ rfl).2⟩

/-- C6: while recording_ is false, every arrival on the ingest path is
discarded before reaching its buffer: any sequence of arrivals on any
topics leaves the whole state, in particular every buffer's contents and
accumulator, exactly unchanged; and after setRecording true a subsequent
arrival is buffered normally again, pushed onto its topic's queue. -/
theorem C6_pause_non_destructive (st : SnapshoterState)
    (arrivals : List (String × SnapshotMessage)) (hr : st.recording_ = false) :
    runArrivals st arrivals = st ∧
    (∀ (topic : String) (msg : SnapshotMessage),
      topicCB (setRecording true st) topic msg
        = { st with
            recording_ := true,
            buffers_ := st.buffers_.map (fun p =>
              if p.1 = topic then (p.1, (p.2.push msg).2) else p) }) := by
  constructor
  · induction arrivals with
    | nil => rfl
    | cons a rest ih =>
      have h1 : topicCB st a.1 a.2 = st := by
        unfold topicCB
        rw [hr]
        simp
      have hstep : runArrivals st (a :: rest)
          = runArrivals (topicCB st a.1 a.2) rest := by
        simp [runArrivals]
      rw [hstep, h1]
      exact ih
  · intro topic msg
    unfold topicCB setRecording
    simp

/-- Witness for C6: a concrete paused state with one non-empty buffer and
two arrivals: the state is exactly unchanged. -/
theorem C6_pause_non_destructive_witness :
    (⟨[("a", ⟨none, none, [⟨5, 0⟩], 5⟩)], false, false⟩ : SnapshoterState).recording_
      = false ∧
    runArrivals ⟨[("a", ⟨none, none, [⟨5, 0⟩], 5⟩)], false, false⟩
        [("a", ⟨3, 1⟩), ("b", ⟨2, 2⟩)]
      = ⟨[("a", ⟨none, none, [⟨5, 0⟩], 5⟩)], false, false⟩ :=
  ⟨rfl,
    (C6_pause_non_destructive ⟨[("a", ⟨none, none, [⟨5, 0⟩], 5⟩)], false, false⟩
      [("a", ⟨3, 1⟩), ("b", ⟨2, 2⟩)] rfl).1⟩

theorem resolveLimit_resolveLimit (d x : LimitValue) :
    resolveLimit d (resolveLimit d x) = resolveLimit d x := by
  cases x <;> cases d <;> rfl

/-- C7: resolving per-topic limits against the global defaults replaces
each InheritDefault field with the corresponding default, passes Unbounded
and explicit values through unchanged, and is idempotent: resolving an
already-resolved record again yields the same record. -/
theorem C7_resolution_idempotent (g : GlobalDefaults) (dl ml : LimitValue) :
    fixTopicOptions g { duration_limit_ := dl, memory_limit_ := ml }
      = { duration_limit_ := resolveLimit g.default_duration_limit_ dl,
          memory_limit_ := resolveLimit g.default_memory_limit_ ml } ∧
    resolveLimit g.default_duration_limit_ .inheritDefault = g.default_duration_limit_ ∧
    resolveLimit g.default_memory_limit_ .inheritDefault = g.default_memory_limit_ ∧
    resolveLimit g.default_duration_limit_ .unbounded = .unbounded ∧
    resolveLimit g.default_memory_limit_ .unbounded = .unbounded ∧
    (∀ v : Int, resolveLimit g.default_duration_limit_ (.value v) = .value v ∧
                resolveLimit g.default_memory_limit_ (.value v) = .value v) ∧
    fixTopicOptions g (fixTopicOptions g { duration_limit_ := dl, memory_limit_ := ml })
      = fixTopicOptions g { duration_limit_ := dl, memory_limit_ := ml } := by
  refine ⟨rfl, rfl, rfl, rfl, rfl, fun v => ⟨rfl, rfl⟩, ?_⟩
  unfold fixTopicOptions
  simp [resolveLimit_resolveLimit]

/-- C8: a negative configured duration or memory value resolves to an
unbounded limit for that dimension; in particular the command-line size
option's documented default of -1 MB gives
default_memory_limit_ = int(1E6 * -1) = -1000000, which still resolves to
an unbounded memory limit. -/
theorem C8_negative_means_unbounded :
    (∀ m : Int, m < 0 → memoryLimitOfConfig m = none) ∧
    (∀ d : Int, d < 0 → durationLimitOfConfig d = none) ∧
    defaultMemoryLimitOfSize sizeOptionDefault = -1000000 ∧
    memoryLimitOfConfig (defaultMemoryLimitOfSize sizeOptionDefault) = none := by
  refine ⟨?_, ?_, by decide, by decide⟩
  · intro m hm
    simp [memoryLimitOfConfig, hm]
  · intro d hd
    simp [durationLimitOfConfig, hd]

/-- Witness for C8: concrete negative values resolve to unbounded, and so
does the default computed from size -1. -/
theorem C8_negative_means_unbounded_witness :
    ((-5 : Int) < 0 ∧ memoryLimitOfConfig (-5) = none) ∧
    ((-7 : Int) < 0 ∧ durationLimitOfConfig (-7) = none) ∧
    memoryLimitOfConfig (defaultMemoryLimitOfSize sizeOptionDefault) = none :=
  ⟨⟨by decide, C8_negative_means_unbounded.1 (-5) (by decide)⟩,
   ⟨by decide, C8_negative_means_unbounded.2.1 (-7) (by decide)⟩,
   C8_negative_means_unbounded.2.2.2⟩

/-- C9: on the server path (no client flag set) with successful option
parsing, if combining the command-line and parameter topic sources yields
zero configured channels, main takes the fatal branch: ROS_FATAL, exit
code 1, and the Snapshoter is never constructed. -/
theorem C9_no_topics_fatal (vm : VariablesMap)
    (paramTopics : List (String × LimitValue × LimitValue))
    (clientInit : SnapshoterClientOptions)
    (htw : vm.trigger_write = false) (hp : vm.pause = false) (hr : vm.resume = false)
    (hempty : (configuredOptions vm paramTopics).topics_ = []) :
    snapshotMain true vm paramTopics clientInit = .fatalNoTopics ∧
    mainExitCode (snapshotMain true vm paramTopics clientInit) = some 1 ∧
    ∀ opts, snapshotMain true vm paramTopics clientInit ≠ .runSnapshoter opts := by
  have hmain : snapshotMain true vm paramTopics clientInit = .fatalNoTopics := by
    simp [snapshotMain, htw, hp, hr, hempty]
  refine ⟨hmain, ?_, ?_⟩
  · rw [hmain]
    rfl
  · intro opts
    rw [hmain]
    intro hcontra
    cases hcontra

/-- Witness for C9: a command line with no topics and an empty ~topics
parameter: main ends in the fatal branch with exit code 1. -/
theorem C9_no_topics_fatal_witness :
    (configuredOptions ⟨false, false, false, -1, 30, "", []⟩ []).topics_ = [] ∧
    snapshotMain true ⟨false, false, false, -1, 30, "", []⟩ []
        ⟨.triggerWrite, [], ""⟩ = .fatalNoTopics ∧
    mainExitCode (snapshotMain true ⟨false, false, false, -1, 30, "", []⟩ []
        ⟨.triggerWrite, [], ""⟩) = some 1 :=
  ⟨rfl,
    (C9_no_topics_fatal ⟨false, false, false, -1, 30, "", []⟩ []
      ⟨.triggerWrite, [], ""⟩ rfl rfl rfl rfl).1,
    (C9_no_topics_fatal ⟨false, false, false, -1, 30, "", []⟩ []
      ⟨.triggerWrite, [], ""⟩ rfl rfl rfl rfl).2.1⟩

/-- C10: parseVariablesMapClient selects at most one action, with fixed
precedence pause over resume over trigger-write, and the topics and
filename options are copied into the client options only in the
trigger-write branch: the pause and resume branches change nothing but
the action, and with no flag set the options are returned untouched. -/
theorem C10_client_action_precedence (opts : SnapshoterClientOptions) (vm : VariablesMap) :
    (vm.pause = true →
      parseVariablesMapClient opts vm = { opts with action_ := .pause }) ∧
    (vm.pause = false → vm.resume = true →
      parseVariablesMapClient opts vm = { opts with action_ := .resume }) ∧
    (vm.pause = false → vm.resume = false → vm.trigger_write = true →
      parseVariablesMapClient opts vm
        = { action_ := .triggerWrite,
            topics_ := if vm.topic.isEmpty then opts.topics_ else vm.topic,
            filename_ := vm.filename }) ∧
    (vm.pause = false → vm.resume = false → vm.trigger_write = false →
      parseVariablesMapClient opts vm = opts) := by
  refine ⟨?_, ?_, ?_, ?_⟩
  · intro h1
    simp [parseVariablesMapClient, h1]
  · intro h1 h2
    simp [parseVariablesMapClient, h1, h2]
  · intro h1 h2 h3
    simp [parseVariablesMapClient, h1, h2, h3]
  · intro h1 h2 h3
    simp [parseVariablesMapClient, h1, h2, h3]

/-- Witness for C10: with all three flags set at once and topics and a
filename supplied, pause wins and the topics and filename are not copied
into the client options. -/
theorem C10_client_action_precedence_witness :
    (⟨true, true, true, -1, 30, "out.bag", ["x"]⟩ : VariablesMap).pause = true ∧
    parseVariablesMapClient ⟨.triggerWrite, ["old"], "old.bag"⟩
        ⟨true, true, true, -1, 30, "out.bag", ["x"]⟩
      = { (⟨.triggerWrite, ["old"], "old.bag"⟩ : SnapshoterClientOptions) with
          action_ := .pause } :=
  ⟨rfl,
    (C10_client_action_precedence ⟨.triggerWrite, ["old"], "old.bag"⟩
      ⟨true, true, true, -1, 30, "out.bag", ["x"]⟩).1 rfl⟩

end Rosbag
